import Mathlib

/-!
Shallow embedding of the Ephemeral Terminal Session Gateway of the
docker-wss-terminal repository (file src/server.js) and proofs of the
frozen claims about it.

The embedding covers:
 * the Stream Demultiplexer (the message handler, lines 271-344),
 * the Token Codec (generateToken / verifyToken, lines 78-102, with the
   jsonwebtoken collaborator modelled abstractly),
 * the Session Registry (the activeSessions Map, line 33, with its sweep
   loop at lines 151-157),
 * the Session Authority (the getaccess handler, lines 108-202),
 * the Terminal Bridge connection establishment (the connection handler,
   lines 218-396) and its teardown handlers (lines 360-387).

External collaborators (Docker runtime, JSON.parse, uuid, wall clock) are
passed in as explicit parameters so every definition stays executable.
-/

namespace WssTerminal

/-!
Bytes and byte-level helpers.  Inbound WebSocket frames are base64-decoded
into a Node Buffer; we model the decoded buffer as a list of byte values
(each below 256 in practice, though no proof depends on that bound).
-/

abbrev Bytes := List Nat

/-- Byte values of an ASCII string literal, used for the substring checks
the source performs on the UTF-8 decoded text of a frame. -/
def strBytes (s : String) : Bytes :=
  s.data.map Char.toNat

/-- Models the JavaScript string method hay.includes(needle) at the byte
level (every needle the source uses is pure ASCII). -/
def containsSub (needle hay : Bytes) : Bool :=
  hay.tails.any (fun t => needle.isPrefixOf t)

/-- ASCII decimal digit test: the byte-level reading of the digit class in
the numeric-resize regex at line 311. -/
def isDigit (b : Nat) : Bool :=
  48 ≤ b && b ≤ 57

/-- Models JavaScript Number(s) on a string of decimal digits. -/
def digitsToNat (l : Bytes) : Nat :=
  l.foldl (fun acc b => acc * 10 + (b - 48)) 0

/-!
Stream Demultiplexer: the body of the message handler, server.js lines
271-344, applied to each base64-decoded inbound frame.
-/

/-- Filter 1 (lines 278-285): the frame starts with the exact corruption
signature 0xCD 0xE4 0xD3 0x63. -/
def corruptionSig : Bytes → Bool
  | 0xCD :: 0xE4 :: 0xD3 :: 0x63 :: _ => true
  | _ => false

/-- Filter 2 (lines 289-295): nonempty frame shorter than 50 bytes whose
first byte exceeds 0x7F. -/
def shortHighByte (b : Bytes) : Bool :=
  decide (b.length < 50) && decide (0 < b.length) && decide (0x7F < b.headD 0)

/-- Filter 3 (lines 297-305): the frame contains both the ESC byte 0x1b
and the right-bracket byte 0x5d somewhere. -/
def escapeMarker (b : Bytes) : Bool :=
  b.contains 0x1b && b.contains 0x5d

/-- Matches the numeric-resize regex of line 311 (digits, comma, digits,
spanning the whole text) and performs the split-and-convert of line 313,
returning the pair (cols, rows) on success. -/
def matchNumericResize (b : Bytes) : Option (Nat × Nat) :=
  match b.splitOn 44 with
  | [d1, d2] =>
    if d1 ≠ [] && d2 ≠ [] && d1.all isDigit && d2.all isDigit then
      some (digitsToNat d1, digitsToNat d2)
    else none
  | _ => none

/-- Tests whether the decoded text starts with an opening brace, as the
startsWith check at line 322 does. -/
def startsWithBrace : Bytes → Bool
  | 123 :: _ => true
  | _ => false

/-- Guard of the structured-resize branch (line 322): the text starts with
an opening brace and includes the substring Width or the substring height
(exactly those two spellings, case sensitive). -/
def jsonGuard (b : Bytes) : Bool :=
  startsWithBrace b
    && (containsSub (strBytes ("Width")) b || containsSub (strBytes ("height")) b)

/-- JavaScript values relevant to the parsed resize object: the JSON.parse
results whose properties the source reads at lines 324-326. -/
inductive JsonVal where
  | num (n : Int)
  | str (s : Bytes)
  | boolean (b : Bool)
  | nullVal
  deriving DecidableEq, Repr

/-- Models a parsed JSON object as its property list; later duplicates
override earlier ones, as JSON.parse does. -/
abbrev JsonObj := List (Bytes × JsonVal)

/-- Models JavaScript property access obj[k]; none models undefined.
JSON.parse keeps the last duplicate key, hence the reversed lookup. -/
def getProp (o : JsonObj) (k : Bytes) : Option JsonVal :=
  (o.reverse.find? (fun p => p.1 == k)).map Prod.snd

/-- JavaScript truthiness of a possibly-undefined value. -/
def truthy : Option JsonVal → Bool
  | none => false
  | some (.num n) => decide (n ≠ 0)
  | some (.str s) => decide (s ≠ [])
  | some (.boolean b) => b
  | some .nullVal => false

/-- Models the JavaScript or-operator over possibly-undefined values. -/
def jsOr (a b : Option JsonVal) : Option JsonVal :=
  if truthy a then a else b

/-- Row extraction at line 325: property Height, else height, else h. -/
def jsonRows (o : JsonObj) : Option JsonVal :=
  jsOr (jsOr (getProp o (strBytes ("Height"))) (getProp o (strBytes ("height"))))
    (getProp o (strBytes ("h")))

/-- Column extraction at line 326: property Width, else width, else w. -/
def jsonCols (o : JsonObj) : Option JsonVal :=
  jsOr (jsOr (getProp o (strBytes ("Width"))) (getProp o (strBytes ("width"))))
    (getProp o (strBytes ("w")))

/-- The six possible fates of one decoded inbound frame.  resizeNumeric
carries (cols, rows) as split from the comma-separated text;
resizeStructured carries the JavaScript values passed to exec.resize. -/
inductive DemuxOutcome where
  | discardCorruption
  | discardHighByte
  | discardEscape
  | resizeNumeric (cols rows : Nat)
  | resizeStructured (cols rows : JsonVal)
  | forwardRaw
  deriving DecidableEq, Repr

/-- The demultiplexer itself: the message-handler body (lines 271-344) as
a classification of the decoded bytes.  parseJson is the JSON.parse
collaborator; none models a thrown SyntaxError (caught at line 334). -/
def classifyFrame (parseJson : Bytes → Option JsonObj) (decoded : Bytes) :
    DemuxOutcome :=
  if corruptionSig decoded then .discardCorruption
  else if shortHighByte decoded then .discardHighByte
  else if escapeMarker decoded then .discardEscape
  else
    match matchNumericResize decoded with
    | some (cols, rows) => .resizeNumeric cols rows
    | none =>
      if jsonGuard decoded then
        match parseJson decoded with
        | some obj =>
          let rows := jsonRows obj
          let cols := jsonCols obj
          if truthy rows && truthy cols then
            .resizeStructured (cols.getD .nullVal) (rows.getD .nullVal)
          else .forwardRaw
        | none => .forwardRaw
      else .forwardRaw

/-- Discriminator for the discard-corruption class. -/
def isDiscardCorruption : DemuxOutcome → Bool
  | .discardCorruption => true
  | _ => false

/-- Discriminator for the discard-high-byte class. -/
def isDiscardHighByte : DemuxOutcome → Bool
  | .discardHighByte => true
  | _ => false

/-- Discriminator for the discard-escape class. -/
def isDiscardEscape : DemuxOutcome → Bool
  | .discardEscape => true
  | _ => false

/-- Discriminator for the resize-numeric class. -/
def isResizeNumeric : DemuxOutcome → Bool
  | .resizeNumeric _ _ => true
  | _ => false

/-- Discriminator for the resize-structured class. -/
def isResizeStructured : DemuxOutcome → Bool
  | .resizeStructured _ _ => true
  | _ => false

/-- Discriminator for the forward-raw class. -/
def isForwardRaw : DemuxOutcome → Bool
  | .forwardRaw => true
  | _ => false

/-- Trivial instantiation of the JSON.parse collaborator (always throws);
used to evaluate the classifier on frames that never reach the
structured-parse branch. -/
def noParse : Bytes → Option JsonObj := fun _ => none

/-!
Token Codec: generateToken and verifyToken, server.js lines 78-102.

The jsonwebtoken collaborator is modelled abstractly: a token is its claim
set plus issue and expiry instants and two flags recording whether the
string parses as a JWT at all and whether its signature matches the shared
secret.  Timestamps are integer milliseconds.
-/

/-- Claim set that generateToken signs (lines 82-87). -/
structure TokenClaims where
  containerName : String
  sessionId : String
  type : String
  deriving DecidableEq, Repr

/-- An opaque token as the verifier sees it. -/
structure Token where
  claims : TokenClaims
  iat : Int
  exp : Int
  wellFormed : Bool
  sigValid : Bool
  deriving DecidableEq, Repr

/-- Models generateToken (lines 81-91): jwt.sign of the claim set with the
shared secret and the configured TTL.  An honestly issued token is well
formed and carries a valid signature. -/
def generateToken (containerName sessionId : String) (now ttl : Int) : Token :=
  { claims := { containerName := containerName, sessionId := sessionId,
                type := "terminal-access" }
    iat := now, exp := now + ttl, wellFormed := true, sigValid := true }

/-- Models jwt.verify (line 98): throws a distinct error for malformation,
bad signature and expiry; returns the claims otherwise. -/
def jwtVerify (t : Token) (now : Int) : Except String TokenClaims :=
  if t.wellFormed = false then .error ("jwt malformed")
  else if t.sigValid = false then .error ("invalid signature")
  else if t.exp ≤ now then .error ("jwt expired")
  else .ok t.claims

/-- Models verifyToken (lines 96-102): the try/catch collapsing every
verification error into the failure marker null. -/
def verifyToken (t : Token) (now : Int) : Option TokenClaims :=
  match jwtVerify t now with
  | .ok c => some c
  | .error _ => none

/-!
Session Registry: the activeSessions Map, server.js line 33, modelled as
an association list with unique keys (every insertion goes through
regSet).
-/

/-- One value of the activeSessions map (lines 145-149). -/
structure SessionInfo where
  containerName : String
  containerId : String
  createdAt : Int
  deriving DecidableEq, Repr

/-- The activeSessions Map. -/
abbrev Registry := List (String × SessionInfo)

/-- Models activeSessions.get, as used at line 240. -/
def regGet (r : Registry) (k : String) : Option SessionInfo :=
  (r.find? (fun p => p.1 == k)).map Prod.snd

/-- Models activeSessions.delete, as used at lines 155 and 372: idempotent
removal. -/
def regDelete (r : Registry) (k : String) : Registry :=
  r.filter (fun p => p.1 != k)

/-- Models activeSessions.set, as used at line 145: insert-or-replace. -/
def regSet (r : Registry) (k : String) (v : SessionInfo) : Registry :=
  (k, v) :: regDelete r k

/-- Ten minutes in milliseconds (line 152). -/
def tenMinutesMs : Int := 10 * 60 * 1000

/-- The sweep loop (lines 151-157): delete every session whose createdAt
is older than ten minutes before now. -/
def sweep (r : Registry) (now : Int) : Registry :=
  r.filter (fun p => decide (now - tenMinutesMs ≤ p.2.createdAt))

/-!
Session Authority: the getaccess handler, server.js lines 108-202.

The Docker runtime is a collaborator: the listContainers result is passed
in as the list of known containers.  The uuid generator and the clock are
likewise parameters.
-/

/-- One element of the listContainers result, with the fields the handler
reads. -/
structure Container where
  Id : String
  Names : List String
  State : String
  deriving DecidableEq, Repr

/-- Models the includes check on JavaScript strings. -/
def strIncludes (hay needle : String) : Bool :=
  containsSub (strBytes needle) (strBytes hay)

/-- Models the startsWith check on JavaScript strings, at the byte level
(code-point prefix and byte prefix agree under the injective character
map). -/
def strStartsWith (s p : String) : Bool :=
  (strBytes p).isPrefixOf (strBytes s)

/-- Container lookup predicate (lines 121-123): some name includes the
requested reference, or the canonical id starts with it. -/
def matchesContainer (containerName : String) (c : Container) : Bool :=
  c.Names.any (fun name => strIncludes name containerName)
    || strStartsWith c.Id containerName

/-- Possible getaccess responses (after the API-key middleware). -/
inductive GetAccessResult where
  /-- Status 400: the containerName query parameter is missing
  (lines 112-117). -/
  | badRequest
  /-- Status 404: no container matches (lines 125-130). -/
  | notFound
  /-- Status 400: the matched container is not running (lines 133-138). -/
  | notRunning
  /-- Status 200 with url, token, sessionId, containerName, containerId
  and expiresIn (lines 183-193). -/
  | ok (token : Token) (sessionId : String) (containerId : String)
  deriving DecidableEq, Repr

/-- HTTP status code of each response branch. -/
def GetAccessResult.status : GetAccessResult → Nat
  | .badRequest => 400
  | .notFound => 404
  | .notRunning => 400
  | .ok _ _ _ => 200

/-- The getaccess handler body (lines 108-202) as a pure function of the
query parameter, the Docker container list, the fresh uuid value, the
clock and the current registry.  Returns the response together with the
registry afterwards. -/
def getaccess (containerName? : Option String) (containers : List Container)
    (newSessionId : String) (now ttl : Int) (registry : Registry) :
    GetAccessResult × Registry :=
  match containerName? with
  | none => (.badRequest, registry)
  | some containerName =>
    match containers.find? (matchesContainer containerName) with
    | none => (.notFound, registry)
    | some container =>
      if container.State ≠ "running" then (.notRunning, registry)
      else
        let token := generateToken containerName newSessionId now ttl
        let registry1 := regSet registry newSessionId
          { containerName := containerName, containerId := container.Id,
            createdAt := now }
        (.ok token newSessionId container.Id, sweep registry1 now)

/-!
Terminal Bridge, connection establishment: the connection handler,
server.js lines 218-396.

The handler runs up to the point where the exec stream is attached and
the relay handlers are installed, or sends one error frame and closes.
The Docker exec-and-start pair is a collaborator modelled by an
Except-String-Unit parameter whose error value is the thrown error whose
message the catch block at lines 389-395 sends.
-/

/-- A frame the server sends on the WebSocket: either the JSON error
object or a base64 chunk of process output. -/
inductive WsFrame where
  | errorFrame (msg : String)
  | dataFrame (b : Bytes)
  deriving DecidableEq, Repr

/-- What the connection handler did before returning. -/
structure ConnResult where
  /-- Frames sent during establishment, in order. -/
  sent : List WsFrame
  /-- Whether the handler closed the socket. -/
  closed : Bool
  /-- The container id passed to docker.getContainer (line 251), if the
  handler got that far. -/
  attachTarget : Option String
  /-- Whether an exec stream was attached and the relay installed. -/
  streamAttached : Bool
  /-- The registry when the handler returns (establishment never writes
  it; deletion happens only in the close handler, line 372). -/
  registry : Registry
  deriving DecidableEq, Repr

/-- The connection-handler body (lines 218-396) up to and including
attach: token extraction, verifyToken, registry lookup, exec creation,
and the catch block. -/
def wsConnection (token? : Option Token) (now : Int) (registry : Registry)
    (attach : Except String Unit) : ConnResult :=
  match token? with
  | none =>
    { sent := [.errorFrame ("No token provided")], closed := true,
      attachTarget := none, streamAttached := false, registry := registry }
  | some token =>
    match verifyToken token now with
    | none =>
      { sent := [.errorFrame ("Invalid or expired token")], closed := true,
        attachTarget := none, streamAttached := false, registry := registry }
    | some decoded =>
      match regGet registry decoded.sessionId with
      | none =>
        { sent := [.errorFrame ("Session not found or expired")],
          closed := true, attachTarget := none, streamAttached := false,
          registry := registry }
      | some sessionInfo =>
        match attach with
        | .ok _ =>
          { sent := [], closed := false,
            attachTarget := some sessionInfo.containerId,
            streamAttached := true, registry := registry }
        | .error msg =>
          { sent := [.errorFrame msg], closed := true,
            attachTarget := some sessionInfo.containerId,
            streamAttached := false, registry := registry }

/-- Registry effect of the close handler (lines 369-373): delete the
session. -/
def wsCloseHandler (sessionId : String) (registry : Registry) : Registry :=
  regDelete registry sessionId

/-!
Terminal Bridge, teardown state machine: server.js lines 360-387.

Once streaming, four event sources can terminate the bridge: process
stream end, process stream error, WebSocket close, WebSocket error.  Each
handler is total; the state records the socket readyState, whether the
stream has been ended, the shared registry, the frames sent, and a count
of the session-delete calls that actually removed an entry.
-/

/-- A termination-side event delivered to the handlers of one bridge:
stream end (lines 361-366), stream error (lines 376-382), socket close
(lines 369-373), socket error (lines 384-387). -/
inductive BridgeEvent where
  | streamEnd
  | streamError (msg : String)
  | wsClose
  | wsError
  deriving DecidableEq, Repr

/-- Mutable state the teardown handlers of one bridge touch. -/
structure BridgeState where
  /-- Whether the socket readyState is OPEN. -/
  wsOpen : Bool
  /-- Whether end-of-input has been signalled on the stream. -/
  streamEnded : Bool
  /-- The shared activeSessions registry. -/
  registry : Registry
  /-- Frames sent by these handlers. -/
  sent : List WsFrame
  /-- How many delete calls found the session entry present (effective
  deletions). -/
  effDeletes : Nat
  deriving DecidableEq, Repr

/-- One teardown handler invocation, exactly as the source installs them:
stream end closes the socket if open; stream error additionally sends an
error frame first; socket close ends the stream and deletes the session;
socket error ends the stream. -/
def bridgeStep (sessionId : String) (s : BridgeState) :
    BridgeEvent → BridgeState
  | .streamEnd =>
    if s.wsOpen then { s with wsOpen := false } else s
  | .streamError msg =>
    if s.wsOpen then
      { s with sent := s.sent ++ [.errorFrame msg], wsOpen := false }
    else s
  | .wsClose =>
    let present := (regGet s.registry sessionId).isSome
    { s with streamEnded := true,
             registry := regDelete s.registry sessionId,
             effDeletes := s.effDeletes + (if present then 1 else 0) }
  | .wsError =>
    { s with streamEnded := true }

/-- A whole teardown: the handlers run over an arbitrary interleaving of
termination events. -/
def bridgeRun (sessionId : String) (s : BridgeState)
    (evs : List BridgeEvent) : BridgeState :=
  evs.foldl (bridgeStep sessionId) s

/-!
Concrete fixtures used to evaluate the model on explicit inputs: a session
registered for a running container and an honestly issued token for it.
-/

/-- A concrete session id. -/
def sid1 : String := "sid-1"

/-- A concrete registry value for the session. -/
def infoAlp : SessionInfo :=
  { containerName := "alp", containerId := "cid-1", createdAt := 0 }

/-- A registry holding exactly the one session. -/
def reg1 : Registry := [(sid1, infoAlp)]

/-- An honestly issued token for the session, issued at time 0 with a
five-minute TTL. -/
def tok1 : Token := generateToken ("alp") sid1 0 300000

/-- A JSON.parse collaborator that successfully parses the compact
lowercase resize object with keys w and h. -/
def whParse : Bytes → Option JsonObj := fun b =>
  if b = strBytes ("\x7b\"w\":80,\"h\":24\x7d") then
    some [(strBytes ("w"), .num 80), (strBytes ("h"), .num 24)]
  else none

/-- A JSON.parse collaborator that successfully parses the lowercase
width/height resize object. -/
def widthHeightParse : Bytes → Option JsonObj := fun b =>
  if b = strBytes ("\x7b\"width\":80,\"height\":24\x7d") then
    some [(strBytes ("width"), .num 80), (strBytes ("height"), .num 24)]
  else none

/-!
Theorems.  Registry lemmas first, then one theorem per claim together
with its witness or counterexample.
-/

/-- Deleting a key removes every binding for it. -/
theorem regGet_regDelete_self (r : Registry) (k : String) :
    regGet (regDelete r k) k = none := by
  induction r with
  | nil => rfl
  | cons p r ih =>
    rcases p with ⟨a, v⟩
    by_cases h : a = k
    · simpa [regDelete, List.filter_cons, h] using ih
    · simp only [regDelete, List.filter_cons] at ih ⊢
      simp only [bne_iff_ne, ne_eq, h, not_false_eq_true, decide_True,
        if_true]
      simp [regGet, List.find?_cons, h] at ih ⊢

/-- Looking up a freshly set key returns the fresh value. -/
theorem regGet_regSet_self (r : Registry) (k : String) (v : SessionInfo) :
    regGet (regSet r k v) k = some v := by
  simp [regSet, regGet, List.find?_cons]

/-- The sweep keeps an entry created no earlier than ten minutes before
now; in particular a freshly set entry survives the sweep that follows
its insertion. -/
theorem regGet_sweep_regSet (r : Registry) (k : String) (v : SessionInfo)
    (now : Int) (h : now - tenMinutesMs ≤ v.createdAt) :
    regGet (sweep (regSet r k v) now) k = some v := by
  have hkeep : decide (now - tenMinutesMs ≤ v.createdAt) = true := by
    simpa using h
  simp only [sweep, regSet, List.filter_cons, hkeep, if_true]
  have : regGet ((k, v) :: (regDelete r k).filter
      (fun p => decide (now - tenMinutesMs ≤ p.2.createdAt))) k = some v := by
    simp [regGet, List.find?_cons]
  simpa [sweep] using this

/-- C2: for every WebSocket connection whose token verifies
cryptographically but whose sessionId has no entry in the Session
Registry, the connection is rejected with an error frame and closed, no
process stream is attached, and the registry is untouched: Registry
lookup, not token verification, is the final authority. -/
theorem registry_is_final_authority (t : Token) (now : Int)
    (registry : Registry) (attach : Except String Unit) (c : TokenClaims)
    (hv : verifyToken t now = some c)
    (hs : regGet registry c.sessionId = none) :
    wsConnection (some t) now registry attach =
      { sent := [.errorFrame ("Session not found or expired")],
        closed := true, attachTarget := none, streamAttached := false,
        registry := registry } := by
  simp [wsConnection, hv, hs]

/-- Witness for C2: a cryptographically valid token checked against an
empty registry (its session already swept) is rejected. -/
theorem registry_is_final_authority_witness :
    wsConnection (some tok1) 0 [] (.ok ()) =
      { sent := [.errorFrame ("Session not found or expired")],
        closed := true, attachTarget := none, streamAttached := false,
        registry := [] } :=
  registry_is_final_authority tok1 0 [] (.ok ())
    { containerName := "alp", sessionId := sid1, type := "terminal-access" }
    (by decide) (by decide)

/-- C7: token verification returns the failure marker null instead of
throwing, treating malformation, signature mismatch and expiry
identically; and every connection presenting such a failing token gets
exactly one error frame, is closed, and never reaches an attach. -/
theorem invalid_token_rejected (t : Token) (now : Int)
    (h : t.wellFormed = false ∨ t.sigValid = false ∨ t.exp ≤ now) :
    verifyToken t now = none ∧
    ∀ (registry : Registry) (attach : Except String Unit),
      wsConnection (some t) now registry attach =
        { sent := [.errorFrame ("Invalid or expired token")], closed := true,
          attachTarget := none, streamAttached := false,
          registry := registry } := by
  have hv : verifyToken t now = none := by
    unfold verifyToken jwtVerify
    cases hwf : t.wellFormed <;> cases hsv : t.sigValid <;>
      rcases h with h | h | h <;> simp_all
  exact ⟨hv, fun registry attach => by simp [wsConnection, hv]⟩

/-- Witness for C7: the fixture token presented at the moment its TTL ran
out is rejected even though its session is still registered. -/
theorem invalid_token_rejected_witness :
    verifyToken tok1 300000 = none ∧
    wsConnection (some tok1) 300000 reg1 (.ok ()) =
      { sent := [.errorFrame ("Invalid or expired token")], closed := true,
        attachTarget := none, streamAttached := false, registry := reg1 } := by
  have h := invalid_token_rejected tok1 300000 (Or.inr (Or.inr (by decide)))
  exact ⟨h.1, h.2 reg1 (.ok ())⟩

/-- C8: an access request naming a container that matches no known
container fails with the 404 not-found response, a request matching a
container whose state is not running fails with the 400 not-running
response, and in both cases the registry is returned unchanged, so no
Session record is added. -/
theorem getaccess_failures (containerName : String)
    (containers : List Container) (newSessionId : String) (now ttl : Int)
    (registry : Registry) :
    (containers.find? (matchesContainer containerName) = none →
      getaccess (some containerName) containers newSessionId now ttl registry
        = (.notFound, registry)) ∧
    (∀ c, containers.find? (matchesContainer containerName) = some c →
      c.State ≠ "running" →
      getaccess (some containerName) containers newSessionId now ttl registry
        = (.notRunning, registry)) ∧
    GetAccessResult.notFound.status = 404 ∧
    GetAccessResult.notRunning.status = 400 := by
  refine ⟨fun h => by simp [getaccess, h], fun c hc hs => ?_, rfl, rfl⟩
  simp [getaccess, hc, hs]

/-- Witness for C8: a request for an unknown name is a 404 and a request
matching an exited container is a 400, both leaving the registry empty. -/
theorem getaccess_failures_witness :
    getaccess (some ("zzz")) [⟨"abc123", [("/web")], "exited"⟩] ("s1") 0
        300000 [] = (.notFound, []) ∧
    getaccess (some ("web")) [⟨"abc123", [("/web")], "exited"⟩] ("s1") 0
        300000 [] = (.notRunning, []) := by
  constructor
  · exact (getaccess_failures ("zzz") [⟨"abc123", [("/web")], "exited"⟩]
      ("s1") 0 300000 []).1 (by decide)
  · exact ((getaccess_failures ("web") [⟨"abc123", [("/web")], "exited"⟩]
      ("s1") 0 300000 []).2.1 ⟨"abc123", [("/web")], "exited"⟩ (by decide)
      (by decide))

/-- C10: the containerName claim inside a verified token never influences
which container is attached.  Two verified tokens carrying the same
sessionId, whatever their containerName claims, lead the Bridge to the
same attach target, and that target is exactly the canonical containerId
stored in the Registry entry found under the sessionId. -/
theorem attach_ignores_token_container_name (t1 t2 : Token) (now1 now2 : Int)
    (registry : Registry) (attach : Except String Unit) (c1 c2 : TokenClaims)
    (h1 : verifyToken t1 now1 = some c1) (h2 : verifyToken t2 now2 = some c2)
    (hs : c1.sessionId = c2.sessionId) :
    (wsConnection (some t1) now1 registry attach).attachTarget =
      (wsConnection (some t2) now2 registry attach).attachTarget ∧
    (∀ info, regGet registry c1.sessionId = some info →
      (wsConnection (some t1) now1 registry attach).attachTarget =
        some info.containerId) := by
  constructor
  · rcases hg : regGet registry c2.sessionId with _ | info <;>
      rcases attach with _ | msg <;>
      simp [wsConnection, h1, h2, hs, hg]
  · intro info hinfo
    rcases attach with _ | msg <;> simp [wsConnection, h1, hinfo]

/-- Witness for C10: two tokens for the same session whose containerName
claims disagree (one even names a different container) both resolve to the
canonical id stored in the Registry. -/
theorem attach_ignores_token_container_name_witness :
    (wsConnection (some tok1) 0 reg1 (.ok ())).attachTarget =
      (wsConnection (some (generateToken ("other-container") sid1 0 300000))
        0 reg1 (.ok ())).attachTarget := by
  have h := attach_ignores_token_container_name tok1
      (generateToken ("other-container") sid1 0 300000) 0 0 reg1 (.ok ())
      { containerName := "alp", sessionId := sid1, type := "terminal-access" }
      { containerName := "other-container", sessionId := sid1,
        type := "terminal-access" }
      (by decide) (by decide) (by decide)
  exact h.1

/-- C1 counterexample: a token is not single-use while its connection is
live.  A first connection with the fixture token attaches a stream and
leaves the bridge open, the establishment does not touch the registry, and
a second connection presenting the very same token against the resulting
registry is accepted and attaches a second process stream with no error
frame, instead of being rejected. -/
theorem token_single_use_cex :
    (wsConnection (some tok1) 0 reg1 (.ok ())).streamAttached = true ∧
    (wsConnection (some tok1) 0 reg1 (.ok ())).closed = false ∧
    (wsConnection (some tok1) 0 reg1 (.ok ())).registry = reg1 ∧
    (wsConnection (some tok1) 0
      (wsConnection (some tok1) 0 reg1 (.ok ())).registry
      (.ok ())).streamAttached = true ∧
    (wsConnection (some tok1) 0
      (wsConnection (some tok1) 0 reg1 (.ok ())).registry (.ok ())).sent
      = [] := by
  decide

/-- C1 amended: a session is deleted when the WebSocket that used its
token closes, so after the connection opened with a token has closed, any
further connection attempt presenting the same token is rejected with an
error frame, closed, and attaches nothing.  (While the first connection is
still live, a second attempt with the same token is accepted, as the
counterexample shows.) -/
theorem token_rejected_after_close (t : Token) (now : Int)
    (registry : Registry) (attach : Except String Unit) (c : TokenClaims)
    (hv : verifyToken t now = some c) :
    wsConnection (some t) now (wsCloseHandler c.sessionId registry) attach =
      { sent := [.errorFrame ("Session not found or expired")],
        closed := true, attachTarget := none, streamAttached := false,
        registry := wsCloseHandler c.sessionId registry } := by
  have hs : regGet (wsCloseHandler c.sessionId registry) c.sessionId = none :=
    regGet_regDelete_self registry c.sessionId
  simp [wsConnection, hv, hs]

/-- Witness for the amended C1: once the close handler has run for the
fixture session, presenting the fixture token again is rejected. -/
theorem token_rejected_after_close_witness :
    wsConnection (some tok1) 0 (wsCloseHandler sid1 reg1) (.ok ()) =
      { sent := [.errorFrame ("Session not found or expired")],
        closed := true, attachTarget := none, streamAttached := false,
        registry := wsCloseHandler sid1 reg1 } :=
  token_rejected_after_close tok1 0 reg1 (.ok ())
    { containerName := "alp", sessionId := sid1, type := "terminal-access" }
    (by decide)

/-- C4 counterexample: when attaching the process stream fails after the
token and session were accepted, the handler sends the error frame and
closes the socket, but the session is still present in the Registry
afterwards, contradicting the claim that the attach failure deletes it. -/
theorem attach_failure_session_retained_cex :
    (wsConnection (some tok1) 0 reg1 (.error ("attach failed"))).sent =
      [.errorFrame ("attach failed")] ∧
    (wsConnection (some tok1) 0 reg1 (.error ("attach failed"))).closed
      = true ∧
    (wsConnection (some tok1) 0 reg1
      (.error ("attach failed"))).streamAttached = false ∧
    regGet (wsConnection (some tok1) 0 reg1
      (.error ("attach failed"))).registry sid1 = some infoAlp := by
  decide

/-- C4 amended: when attaching the container process stream fails after a
token and session have been accepted, the Bridge sends one error frame
carrying the failure message and closes the connection, but it does not
delete the Session: the registry is returned unchanged and the session is
still found in it (it disappears only through a later sweep).  The
close-handler deletion of line 372 is installed only after a successful
attach. -/
theorem attach_failure_behavior (t : Token) (now : Int) (registry : Registry)
    (msg : String) (c : TokenClaims) (info : SessionInfo)
    (hv : verifyToken t now = some c)
    (hs : regGet registry c.sessionId = some info) :
    wsConnection (some t) now registry (.error msg) =
      { sent := [.errorFrame msg], closed := true,
        attachTarget := some info.containerId, streamAttached := false,
        registry := registry } ∧
    regGet (wsConnection (some t) now registry (.error msg)).registry
      c.sessionId = some info := by
  have h : wsConnection (some t) now registry (.error msg) =
      { sent := [.errorFrame msg], closed := true,
        attachTarget := some info.containerId, streamAttached := false,
        registry := registry } := by
    simp [wsConnection, hv, hs]
  exact ⟨h, by rw [h]; exact hs⟩

/-- Witness for the amended C4: the fixture session survives a failed
attach. -/
theorem attach_failure_behavior_witness :
    wsConnection (some tok1) 0 reg1 (.error ("no such container")) =
      { sent := [.errorFrame ("no such container")], closed := true,
        attachTarget := some ("cid-1"), streamAttached := false,
        registry := reg1 } ∧
    regGet (wsConnection (some tok1) 0 reg1
      (.error ("no such container"))).registry sid1 = some infoAlp := by
  have h := attach_failure_behavior tok1 0 reg1 ("no such container")
    { containerName := "alp", sessionId := sid1, type := "terminal-access" }
    infoAlp (by decide) (by decide)
  exact h

/-- C3 counterexample: a successful access request for the running
container with canonical id abc123456, looked up by the partial name
reference test, yields a token whose decoded claim set is exactly
(containerName = test, sessionId = sid-9, type = terminal-access): no
field of the claim set carries the canonical id abc123456.  The canonical
id reaches only the response body and the Registry entry. -/
theorem token_claims_canonical_id_cex :
    (getaccess (some ("test")) [⟨"abc123456", [("/test-alpine")], "running"⟩]
        ("sid-9") 0 300000 []).1 =
      .ok (generateToken ("test") ("sid-9") 0 300000) ("sid-9")
        ("abc123456") ∧
    (generateToken ("test") ("sid-9") 0 300000).claims =
      { containerName := "test", sessionId := "sid-9",
        type := "terminal-access" } ∧
    (generateToken ("test") ("sid-9") 0 300000).claims.containerName ≠
      "abc123456" ∧
    (generateToken ("test") ("sid-9") 0 300000).claims.sessionId ≠
      "abc123456" ∧
    (generateToken ("test") ("sid-9") 0 300000).claims.type ≠
      "abc123456" := by
  decide

/-- C3 amended: for every container in state running, a successful access
request returns a token whose decoded claims carry the requested container
reference and the fresh sessionId, while the canonical (resolved)
container id is returned in the response and recorded in the Registry
entry that the sessionId claim points to. -/
theorem getaccess_token_binding (containerName : String)
    (containers : List Container) (newSessionId : String) (now ttl : Int)
    (registry : Registry) (c : Container)
    (hc : containers.find? (matchesContainer containerName) = some c)
    (hr : c.State = "running") :
    getaccess (some containerName) containers newSessionId now ttl registry
      = (.ok (generateToken containerName newSessionId now ttl)
          newSessionId c.Id,
         sweep (regSet registry newSessionId
           { containerName := containerName, containerId := c.Id,
             createdAt := now }) now) ∧
    (generateToken containerName newSessionId now ttl).claims.containerName
      = containerName ∧
    (generateToken containerName newSessionId now ttl).claims.sessionId
      = newSessionId ∧
    regGet (getaccess (some containerName) containers newSessionId now ttl
        registry).2 newSessionId =
      some { containerName := containerName, containerId := c.Id,
             createdAt := now } := by
  have h : getaccess (some containerName) containers newSessionId now ttl
      registry
      = (.ok (generateToken containerName newSessionId now ttl)
          newSessionId c.Id,
         sweep (regSet registry newSessionId
           { containerName := containerName, containerId := c.Id,
             createdAt := now }) now) := by
    simp [getaccess, hc, hr]
  refine ⟨h, rfl, rfl, ?_⟩
  rw [h]
  exact regGet_sweep_regSet registry newSessionId _ now
    (by simp only [tenMinutesMs]; omega)

/-- Witness for the amended C3: the concrete request of the
counterexample, with the registry entry holding the canonical id. -/
theorem getaccess_token_binding_witness :
    getaccess (some ("test")) [⟨"abc123456", [("/test-alpine")], "running"⟩]
        ("sid-9") 0 300000 []
      = (.ok (generateToken ("test") ("sid-9") 0 300000) ("sid-9")
          ("abc123456"),
         sweep (regSet [] ("sid-9")
           { containerName := "test", containerId := "abc123456",
             createdAt := 0 }) 0) ∧
    regGet (getaccess (some ("test"))
        [⟨"abc123456", [("/test-alpine")], "running"⟩] ("sid-9") 0 300000
        []).2 ("sid-9") =
      some { containerName := "test", containerId := "abc123456",
             createdAt := 0 } := by
  have h := getaccess_token_binding ("test")
    [⟨"abc123456", [("/test-alpine")], "running"⟩] ("sid-9") 0 300000 []
    ⟨"abc123456", [("/test-alpine")], "running"⟩ (by decide) (by decide)
  exact ⟨h.1, h.2.2.2⟩

/-- C5: for every decoded inbound frame, exactly one of the six
Demultiplexer outcomes applies, the rules are decided in the strict source
order (corruption signature, then short high-byte, then escape marker,
then numeric resize), and in particular the text 80,24 yields a resize to
cols 80 and rows 24 with nothing forwarded, the text hello is forwarded
raw, and the bytes 0xCD 0xE4 0xD3 0x63 0x00 are discarded. -/
theorem demux_classification (parseJson : Bytes → Option JsonObj)
    (b : Bytes) :
    ([isDiscardCorruption (classifyFrame parseJson b),
      isDiscardHighByte (classifyFrame parseJson b),
      isDiscardEscape (classifyFrame parseJson b),
      isResizeNumeric (classifyFrame parseJson b),
      isResizeStructured (classifyFrame parseJson b),
      isForwardRaw (classifyFrame parseJson b)].count true = 1) ∧
    (corruptionSig b = true →
      classifyFrame parseJson b = .discardCorruption) ∧
    (corruptionSig b = false → shortHighByte b = true →
      classifyFrame parseJson b = .discardHighByte) ∧
    (corruptionSig b = false → shortHighByte b = false →
      escapeMarker b = true → classifyFrame parseJson b = .discardEscape) ∧
    (∀ cols rows, corruptionSig b = false → shortHighByte b = false →
      escapeMarker b = false →
      matchNumericResize b = some (cols, rows) →
      classifyFrame parseJson b = .resizeNumeric cols rows) ∧
    classifyFrame parseJson (strBytes ("80,24")) = .resizeNumeric 80 24 ∧
    classifyFrame parseJson (strBytes ("hello")) = .forwardRaw ∧
    classifyFrame parseJson [0xCD, 0xE4, 0xD3, 0x63, 0x00] =
      .discardCorruption := by
  refine ⟨?_, ?_, ?_, ?_, ?_, rfl, rfl, rfl⟩
  · rcases classifyFrame parseJson b <;> rfl
  · intro h1
    simp [classifyFrame, h1]
  · intro h1 h2
    simp [classifyFrame, h1, h2]
  · intro h1 h2 h3
    simp [classifyFrame, h1, h2, h3]
  · intro cols rows h1 h2 h3 h4
    simp [classifyFrame, h1, h2, h3, h4]

/-- Witness for C5: the corruption-rule implication applied at the
concrete corrupted frame, under the trivial parser. -/
theorem demux_classification_witness :
    classifyFrame noParse [0xCD, 0xE4, 0xD3, 0x63, 0x00] =
      .discardCorruption :=
  (demux_classification noParse [0xCD, 0xE4, 0xD3, 0x63, 0x00]).2.1
    (by decide)

/-- C6 counterexample: the decoded text of the compact resize object with
keys w and h begins with an opening brace and pairs a width-style key with
a height-style key in one of the accepted spellings, and a parser that
parses it finds both dimensions present and truthy; yet the classifier
never attempts the structured parse (the guard requires the substring
Width or the substring height) and forwards the frame as raw input instead
of issuing a resize. -/
theorem structured_resize_guard_cex :
    startsWithBrace (strBytes ("\x7b\"w\":80,\"h\":24\x7d")) = true ∧
    whParse (strBytes ("\x7b\"w\":80,\"h\":24\x7d")) =
      some [(strBytes ("w"), .num 80), (strBytes ("h"), .num 24)] ∧
    truthy (jsonRows [(strBytes ("w"), .num 80),
      (strBytes ("h"), .num 24)]) = true ∧
    truthy (jsonCols [(strBytes ("w"), .num 80),
      (strBytes ("h"), .num 24)]) = true ∧
    jsonGuard (strBytes ("\x7b\"w\":80,\"h\":24\x7d")) = false ∧
    classifyFrame whParse (strBytes ("\x7b\"w\":80,\"h\":24\x7d")) =
      .forwardRaw := by
  decide

/-- C6 amended: the structured parse is attempted only for frames whose
text begins with an opening brace and contains the substring Width or the
substring height (not for every accepted key spelling); when it is
attempted and the parse succeeds with both dimensions truthy, a resize is
issued and nothing is forwarded; when both dimensions are not truthy, or
the parse fails, the frame falls through to raw forwarding; and when the
guard does not hold the frame is forwarded raw without any parse
attempt. -/
theorem structured_resize_amended (parseJson : Bytes → Option JsonObj)
    (b : Bytes) (obj : JsonObj)
    (hc : corruptionSig b = false) (hh : shortHighByte b = false)
    (he : escapeMarker b = false) (hn : matchNumericResize b = none) :
    (jsonGuard b = true → parseJson b = some obj →
      ((truthy (jsonRows obj) && truthy (jsonCols obj)) = true →
        classifyFrame parseJson b =
          .resizeStructured ((jsonCols obj).getD .nullVal)
            ((jsonRows obj).getD .nullVal)) ∧
      ((truthy (jsonRows obj) && truthy (jsonCols obj)) = false →
        classifyFrame parseJson b = .forwardRaw)) ∧
    (jsonGuard b = true → parseJson b = none →
      classifyFrame parseJson b = .forwardRaw) ∧
    (jsonGuard b = false → classifyFrame parseJson b = .forwardRaw) := by
  refine ⟨fun hg hp => ⟨fun ht => ?_, fun hf => ?_⟩, fun hg hp => ?_,
    fun hg => ?_⟩
  · rw [Bool.and_eq_true] at ht
    simp [classifyFrame, hc, hh, he, hn, hg, hp, ht.1, ht.2]
  · simp [classifyFrame, hc, hh, he, hn, hg, hp, hf]
  · simp [classifyFrame, hc, hh, he, hn, hg, hp]
  · simp [classifyFrame, hc, hh, he, hn, hg]

/-- Witness for the amended C6: the lowercase width/height object does
contain the substring height, so its parse is attempted and a structured
resize with cols 80 and rows 24 is issued. -/
theorem structured_resize_amended_witness :
    classifyFrame widthHeightParse
      (strBytes ("\x7b\"width\":80,\"height\":24\x7d")) =
      .resizeStructured (.num 80) (.num 24) := by
  have h := structured_resize_amended widthHeightParse
    (strBytes ("\x7b\"width\":80,\"height\":24\x7d"))
    [(strBytes ("width"), .num 80), (strBytes ("height"), .num 24)]
    (by decide) (by decide) (by decide) (by decide)
  have h2 := (h.1 (by decide) (by decide)).1 (by decide)
  simpa using h2

/-- Once the session is absent, any further teardown events leave the
effective-deletion count unchanged and the session absent: the delete in
the close handler is idempotent. -/
theorem bridgeRun_absent (sid : String) (evs : List BridgeEvent) :
    ∀ s : BridgeState, regGet s.registry sid = none →
      (bridgeRun sid s evs).effDeletes = s.effDeletes ∧
      regGet (bridgeRun sid s evs).registry sid = none := by
  induction evs with
  | nil => exact fun s h => ⟨rfl, h⟩
  | cons e evs ih =>
    intro s h
    have hstep : (bridgeStep sid s e).effDeletes = s.effDeletes ∧
        regGet (bridgeStep sid s e).registry sid = none := by
      cases e with
      | streamEnd => by_cases hw : s.wsOpen <;> simp [bridgeStep, hw, h]
      | streamError m => by_cases hw : s.wsOpen <;> simp [bridgeStep, hw, h]
      | wsClose => simp [bridgeStep, h, regGet_regDelete_self]
      | wsError => simp [bridgeStep, h]
    have hrun : bridgeRun sid s (e :: evs) =
        bridgeRun sid (bridgeStep sid s e) evs := rfl
    rw [hrun]
    rcases ih (bridgeStep sid s e) hstep.2 with ⟨h1, h2⟩
    exact ⟨h1.trans hstep.1, h2⟩

/-- While the session is present, running the teardown handlers over any
event interleaving deletes the session exactly when a socket-close event
occurs, and the effective-deletion count rises by exactly one in that
case, no matter how many termination triggers race. -/
theorem bridgeRun_present (sid : String) (info : SessionInfo)
    (evs : List BridgeEvent) :
    ∀ s : BridgeState, regGet s.registry sid = some info →
      (bridgeRun sid s evs).effDeletes =
        s.effDeletes + (if BridgeEvent.wsClose ∈ evs then 1 else 0) ∧
      regGet (bridgeRun sid s evs).registry sid =
        (if BridgeEvent.wsClose ∈ evs then none else some info) := by
  induction evs with
  | nil => intro s h; simpa [bridgeRun] using h
  | cons e evs ih =>
    intro s h
    have hrun : bridgeRun sid s (e :: evs) =
        bridgeRun sid (bridgeStep sid s e) evs := rfl
    cases e with
    | wsClose =>
      have hstep : (bridgeStep sid s .wsClose).effDeletes =
            s.effDeletes + 1 ∧
          regGet (bridgeStep sid s .wsClose).registry sid = none := by
        simp [bridgeStep, h, regGet_regDelete_self]
      rcases bridgeRun_absent sid evs (bridgeStep sid s .wsClose) hstep.2
        with ⟨h1, h2⟩
      rw [hrun]
      constructor
      · rw [h1, hstep.1]; simp
      · rw [h2]; simp
    | streamEnd =>
      have hkeep : (bridgeStep sid s .streamEnd).registry = s.registry ∧
          (bridgeStep sid s .streamEnd).effDeletes = s.effDeletes := by
        by_cases hw : s.wsOpen <;> simp [bridgeStep, hw]
      rcases ih (bridgeStep sid s .streamEnd) (by rw [hkeep.1]; exact h)
        with ⟨h1, h2⟩
      rw [hrun]
      constructor
      · rw [h1, hkeep.2]; simp
      · rw [h2]; simp
    | streamError m =>
      have hkeep : (bridgeStep sid s (.streamError m)).registry = s.registry ∧
          (bridgeStep sid s (.streamError m)).effDeletes = s.effDeletes := by
        by_cases hw : s.wsOpen <;> simp [bridgeStep, hw]
      rcases ih (bridgeStep sid s (.streamError m))
        (by rw [hkeep.1]; exact h) with ⟨h1, h2⟩
      rw [hrun]
      constructor
      · rw [h1, hkeep.2]; simp
      · rw [h2]; simp
    | wsError =>
      have hkeep : (bridgeStep sid s .wsError).registry = s.registry ∧
          (bridgeStep sid s .wsError).effDeletes = s.effDeletes := by
        simp [bridgeStep]
      rcases ih (bridgeStep sid s .wsError) (by rw [hkeep.1]; exact h)
        with ⟨h1, h2⟩
      rw [hrun]
      constructor
      · rw [h1, hkeep.2]; simp
      · rw [h2]; simp

/-- C9: Bridge teardown is idempotent.  Starting from a streaming bridge
whose session is registered, every handler is a total function (no
teardown trigger raises), and over any interleaving of termination events
from either side, including sequences in which several racing triggers
fire and the close event is even delivered more than once, the session is
deleted from the Registry exactly once when a close occurs and never
otherwise. -/
theorem teardown_idempotent (sid : String) (info : SessionInfo)
    (registry : Registry) (evs : List BridgeEvent)
    (h : regGet registry sid = some info) :
    (bridgeRun sid
      { wsOpen := true, streamEnded := false, registry := registry,
        sent := [], effDeletes := 0 } evs).effDeletes =
      (if BridgeEvent.wsClose ∈ evs then 1 else 0) ∧
    regGet (bridgeRun sid
      { wsOpen := true, streamEnded := false, registry := registry,
        sent := [], effDeletes := 0 } evs).registry sid =
      (if BridgeEvent.wsClose ∈ evs then none else some info) := by
  have hp := bridgeRun_present sid info evs
    { wsOpen := true, streamEnded := false, registry := registry,
      sent := [], effDeletes := 0 } h
  simpa using hp

/-- Witness for C9: a racing interleaving in which the stream ends, the
socket errors, and the close event is delivered twice still performs
exactly one effective deletion and leaves the session absent. -/
theorem teardown_idempotent_witness :
    (bridgeRun sid1
      { wsOpen := true, streamEnded := false, registry := reg1,
        sent := [], effDeletes := 0 }
      [.streamEnd, .wsError, .wsClose, .wsClose,
        .streamError ("hang up")]).effDeletes = 1 ∧
    regGet (bridgeRun sid1
      { wsOpen := true, streamEnded := false, registry := reg1,
        sent := [], effDeletes := 0 }
      [.streamEnd, .wsError, .wsClose, .wsClose,
        .streamError ("hang up")]).registry sid1 = none := by
  have h := teardown_idempotent sid1 infoAlp reg1
    [.streamEnd, .wsError, .wsClose, .wsClose, .streamError ("hang up")]
    (by decide)
  simpa using h

end WssTerminal
